import Mathlib

/-!
Shallow embedding of the `portown` command of the toolboxer repository
(`src/commands/portown.rs`), together with the pieces of `src/error.rs`
it uses.  Pure string manipulation is embedded directly; the two OS
interaction points (the `netstat` child process and the Win32 process
introspection calls inside `get_process_info`) are abstracted as input
data / oracle functions, while all caching, parsing, filtering and
rendering logic is translated from the Rust source.
-/

namespace Toolboxer

/-- Checks that the token list is a prefix of the character list
(character-by-character comparison). -/
def tokAt : List Char → List Char → Bool
  | [], _ => true
  | _ :: _, [] => false
  | p :: ps, c :: cs => p == c && tokAt ps cs

/-- Substring search on character lists: the token occurs at some position. -/
def containsTokAux (tok : List Char) : List Char → Bool
  | [] => tokAt tok []
  | c :: cs => tokAt tok (c :: cs) || containsTokAux tok cs

/-- Embedding of Rust `str::contains` for a literal pattern
(`line.contains("TCP")` and similar). -/
def containsTok (line tok : String) : Bool :=
  containsTokAux tok.toList line.toList

/-- Accumulator-based splitter over characters: pieces are maximal runs of
non-whitespace characters; empty pieces are skipped. -/
def splitWsAux : List Char → List Char → List String
  | [], acc => if acc.isEmpty then [] else [String.mk acc.reverse]
  | c :: cs, acc =>
    if c.isWhitespace then
      if acc.isEmpty then splitWsAux cs []
      else String.mk acc.reverse :: splitWsAux cs []
    else splitWsAux cs (c :: acc)

/-- Embedding of Rust `str::split_whitespace` (whitespace runs separate
fields, no empty fields are produced). -/
def splitWhitespace (s : String) : List String :=
  splitWsAux s.toList []

/-- The `portown` arguments as referenced by `commands/portown.rs`
(`args.tcp_only`, `args.udp_only`, `args.listen`, `args.established_only`,
`args.depth`). -/
structure PortownArgs where
  tcp_only : Bool
  udp_only : Bool
  listen : Bool
  established_only : Bool
  depth : Option Nat
deriving DecidableEq

/-- One parsed row of the netstat snapshot, the tuple
`(protocol, local_address, foreign_address, state, pid)` pushed onto
`connections` in `execute`. -/
structure ConnectionRecord where
  protocol : String
  local_address : String
  foreign_address : String
  state : String
  pid : String
deriving DecidableEq

/-- The configuration with every filter off and no row cap. -/
def noFilters : PortownArgs :=
  { tcp_only := false, udp_only := false, listen := false,
    established_only := false, depth := none }

/-- Per-line body of the parsing loop of `execute`
(portown.rs lines 46-93): marker filters, field split, minimum column
check, field extraction and state filters.  Returns the record the line
contributes, or `none` when the line is skipped by a `continue`. -/
def parseLine (args : PortownArgs) (line : String) : Option ConnectionRecord :=
  if args.udp_only && !containsTok line "UDP" then none
  else if args.tcp_only && !containsTok line "TCP" then none
  else if !(containsTok line "TCP" || containsTok line "UDP") then none
  else
    let parts := splitWhitespace line
    let min_columns : Nat := if containsTok line "TCP" then 5 else 4
    if parts.length < min_columns then none
    else
      let protocol := if containsTok line "TCP" then "TCP" else "UDP"
      let local_address := parts.getD 1 ""
      let foreign_address := parts.getD 2 ""
      let state := if containsTok line "TCP" then parts.getD 3 "" else "-"
      if args.listen && state != "LISTENING" then none
      else if args.established_only && state != "ESTABLISHED" then none
      else
        let pid := if containsTok line "TCP" then parts.getD 4 "" else parts.getD 3 ""
        some { protocol := protocol, local_address := local_address,
               foreign_address := foreign_address, state := state, pid := pid }

/-- The depth test at the top of the loop:
`if current_depth >= max_depth { break }` when a depth is configured. -/
def capReached : Option Nat → Nat → Bool
  | none, _ => false
  | some m, d => decide (m ≤ d)

/-- The parsing loop of `execute` over the lines of the netstat output,
threading `current_depth` (which counts every line examined, and is
checked before any filtering). -/
def parseLines (args : PortownArgs) : Nat → List String → List ConnectionRecord
  | _, [] => []
  | d, line :: rest =>
    if capReached args.depth d then []
    else
      match parseLine args line with
      | some r => r :: parseLines args (d + 1) rest
      | none => parseLines args (d + 1) rest

/-- Parse a whole netstat output (given as its list of lines), starting
with `current_depth = 0`. -/
def parseNetstat (args : PortownArgs) (lines : List String) : List ConnectionRecord :=
  parseLines args 0 lines

/-- The record a given line yields when it survives all filters (protocol
chosen by the TCP-marker test, UDP state fixed to the sentinel, PID from
column 4 for TCP and column 3 for UDP). -/
def lineRecord (line : String) : ConnectionRecord :=
  let parts := splitWhitespace line
  if containsTok line "TCP" then
    { protocol := "TCP", local_address := parts.getD 1 "",
      foreign_address := parts.getD 2 "", state := parts.getD 3 "",
      pid := parts.getD 4 "" }
  else
    { protocol := "UDP", local_address := parts.getD 1 "",
      foreign_address := parts.getD 2 "", state := "-",
      pid := parts.getD 3 "" }

/-- The error enumeration of `src/error.rs` (the `Io` payload reduced to
its message text, `PathAccess` to the displayed path). -/
inductive Error where
  | io (msg : String)
  | pathAccess (path : String)
  | invalidDepth (value : Int)
  | pattern (msg : String)
  | other (msg : String)
deriving DecidableEq

/-- The display message of each error variant, from the `thiserror`
attributes in `src/error.rs`. -/
def Error.message : Error → String
  | .io m => "IO error: " ++ m
  | .pathAccess p => "Failed to access path: " ++ p
  | .invalidDepth v => "Invalid depth value: " ++ toString v
  | .pattern m => "Pattern error: " ++ m
  | .other m => "Unknown error: " ++ m

/-- Observable outcome of the `netstat -ano` child process: exit status
success flag, stdout (as lines) and stderr text. -/
structure ProcOutput where
  success : Bool
  stdout : List String
  stderr : String
deriving DecidableEq

/-- Result of attempting to spawn `netstat`: either the spawn itself
failed with an I/O error message, or the process ran and produced an
output. -/
inductive NetstatResult where
  | spawnError (msg : String)
  | ran (out : ProcOutput)
deriving DecidableEq

/-- A `HashMap<String, (String, String)>` from PID to
`(process name, process path)`, modelled as an association list where
`cacheInsert` prepends (the most recent binding wins). -/
abbrev Cache : Type := List (String × String × String)

/-- Lookup in the PID cache. -/
def cacheGet : Cache → String → Option (String × String)
  | [], _ => none
  | (k, v) :: rest, pid => if k = pid then some v else cacheGet rest pid

/-- Insert into the PID cache. -/
def cacheInsert (c : Cache) (pid : String) (v : String × String) : Cache :=
  (pid, v) :: c

/-- The empty cache. -/
def emptyCache : Cache := []

/-- Oracle for the Win32 process-introspection calls made by
`get_process_info`: whether `OpenProcess` yields a handle for the PID,
and what `QueryFullProcessImageNameA` / `GetModuleFileNameExA` return
(`none` models a zero/failure return). -/
structure OsProcessApi where
  openProcess : String → Bool
  queryImageName : String → Option String
  getModuleFileName : String → Option String

/-- Result of one `get_process_info` call: the returned identity, the
process-wide cache afterwards, and whether the OS was actually queried
(i.e. the cache missed). -/
structure LookupResult where
  identity : String × String
  cache : Cache
  osQueried : Bool
deriving DecidableEq

/-- The suffix of a string after its last backslash (the whole string
when it has none): `name[last_slash + 1..]` in `get_process_info`. -/
def afterLastBackslash (s : String) : String :=
  String.mk (s.toList.reverse.takeWhile (fun c => c != '\\')).reverse

/-- Embedding of `get_process_info` (portown.rs lines 239-368): consult
the process-wide `PROCESS_CACHE` first; on a miss query the OS — a failed
`OpenProcess` caches and returns `("Unknown", "Unknown")`, otherwise the
name comes from the image path's final component (or "Unknown" on query
failure), the path from `GetModuleFileNameExA` (or "Unknown"), and the
result is cached.  Every return is `Ok` in the source, so the embedding
is total. -/
def get_process_info (api : OsProcessApi) (cache : Cache) (pid : String) :
    LookupResult :=
  match cacheGet cache pid with
  | some info => { identity := info, cache := cache, osQueried := false }
  | none =>
    if api.openProcess pid then
      let name := match api.queryImageName pid with
        | some full => afterLastBackslash full
        | none => "Unknown"
      let path := match api.getModuleFileName pid with
        | some p => p
        | none => "Unknown"
      { identity := (name, path),
        cache := cacheInsert cache pid (name, path), osQueried := true }
    else
      { identity := ("Unknown", "Unknown"),
        cache := cacheInsert cache pid ("Unknown", "Unknown"),
        osQueried := true }

/-- The PID resolution loop of `execute` (portown.rs lines 96-108): for
each PID not yet in the local `pid_cache`, call `get_process_info`
(which itself threads the process-wide cache) and store the result; the
`Err` arm of the source is dead code since `get_process_info` always
returns `Ok`.  Returns the local cache and the final process-wide
cache. -/
def resolveAll (api : OsProcessApi) : Cache → List String → Cache → Cache × Cache
  | gcache, [], lcache => (lcache, gcache)
  | gcache, pid :: rest, lcache =>
    if (cacheGet lcache pid).isSome then resolveAll api gcache rest lcache
    else
      let r := get_process_info api gcache pid
      resolveAll api r.cache rest (cacheInsert lcache pid r.identity)

/-- One rendered table row: the connection fields together with the
resolved process name and path passed to `print_connection`. -/
structure RenderedRow where
  protocol : String
  local_address : String
  foreign_address : String
  state : String
  pid : String
  name : String
  path : String
deriving DecidableEq

/-- The rendering loop of `execute` (portown.rs lines 114-131): each
connection is printed with `pid_cache.get(pid).unwrap_or(&default)` where
the default is `("Unknown", "Unknown")`. -/
def renderRows (pid_cache : Cache) (conns : List ConnectionRecord) :
    List RenderedRow :=
  conns.map (fun c =>
    let np := (cacheGet pid_cache c.pid).getD ("Unknown", "Unknown")
    { protocol := c.protocol, local_address := c.local_address,
      foreign_address := c.foreign_address, state := c.state, pid := c.pid,
      name := np.1, path := np.2 })

/-- Embedding of `execute` (portown.rs lines 10-142), with the `netstat`
invocation and the OS process API as inputs and the rendered rows as
output: spawn failure maps to `Error::Other("Failed to execute netstat: ..")`,
a non-success exit to `Error::Other("netstat command failed")`; otherwise
the output is parsed, distinct PIDs are resolved into the local cache and
every connection is rendered. -/
def execute (args : PortownArgs) (netstat : NetstatResult)
    (api : OsProcessApi) (gcache : Cache) : Except Error (List RenderedRow) :=
  match netstat with
  | .spawnError e => .error (.other ("Failed to execute netstat: " ++ e))
  | .ran out =>
    if !out.success then .error (.other "netstat command failed")
    else
      let conns := parseNetstat args out.stdout
      let caches := resolveAll api gcache (conns.map (fun c => c.pid)) emptyCache
      .ok (renderRows caches.1 conns)

/-- The color enumeration used by `print_connection` (the subset of
`termcolor::Color` the source mentions). -/
inductive Color where
  | green
  | yellow
  | red
  | magenta
  | cyan
  | blue
  | white
  | ansi256 (code : Nat)
deriving DecidableEq

/-- Foreground color chosen for the protocol column in `print_connection`
(portown.rs lines 184-191). -/
def protocolColor (protocol : String) : Color :=
  if protocol = "TCP" then Color.green
  else if protocol = "UDP" then Color.yellow
  else Color.white

/-- Foreground color chosen for the state column in `print_connection`
(portown.rs lines 207-213). -/
def stateColor (state : String) : Color :=
  if state = "LISTENING" then Color.yellow
  else if state = "ESTABLISHED" then Color.green
  else if state = "CLOSE_WAIT" then Color.red
  else if state = "TIME_WAIT" then Color.magenta
  else Color.white

/-- An oracle on which every OS introspection call fails (no PID can be
opened, no query returns data). -/
def api0 : OsProcessApi :=
  { openProcess := fun _ => false,
    queryImageName := fun _ => none,
    getModuleFileName := fun _ => none }

/-- An oracle on which every process handle opens but neither the image
name query nor the module file name query returns data. -/
def apiNoData : OsProcessApi :=
  { openProcess := fun _ => true,
    queryImageName := fun _ => none,
    getModuleFileName := fun _ => none }

end Toolboxer

namespace Toolboxer

/-- Quick sanity example retained as a plain theorem: a minimal TCP line
parses to one record. -/
theorem parseLine_sanity :
    parseLine noFilters "TCP a b c d" =
      some { protocol := "TCP", local_address := "a", foreign_address := "b",
             state := "c", pid := "d" } := by decide

/-- A freshly inserted PID is found by the next lookup. -/
theorem cacheGet_cacheInsert_self (c : Cache) (pid : String) (v : String × String) :
    cacheGet (cacheInsert c pid v) pid = some v := by
  simp [cacheGet, cacheInsert]

/-- The parse loop runs the per-line parser over the first `m - d` lines
when a depth `m` is configured, and over all lines otherwise. -/
theorem parseLines_eq_filterMap (args : PortownArgs) (lines : List String) :
    ∀ d, parseLines args d lines =
      (match args.depth with
        | none => lines
        | some m => lines.take (m - d)).filterMap (parseLine args) := by
  induction lines with
  | nil =>
    intro d
    cases h : args.depth <;> simp [parseLines]
  | cons l ls ih =>
    intro d
    cases h : args.depth with
    | none =>
      simp only [parseLines, capReached, h, List.filterMap_cons]
      cases hp : parseLine args l with
      | some r => simp [hp, ih (d + 1), h]
      | none => simp [hp, ih (d + 1), h]
    | some m =>
      by_cases hmd : m ≤ d
      · have h0 : m - d = 0 := Nat.sub_eq_zero_of_le hmd
        simp [parseLines, capReached, h, hmd, h0]
      · have h1 : m - d = (m - (d + 1)) + 1 := by omega
        simp only [parseLines, capReached, h, hmd, decide_eq_true_eq,
          if_neg, h1, List.take_succ_cons, List.filterMap_cons]
        cases hp : parseLine args l with
        | some r => simp [hp, ih (d + 1), h, hmd]
        | none => simp [hp, ih (d + 1), h, hmd]

/-- Whole-snapshot version of `parseLines_eq_filterMap`. -/
theorem parseNetstat_eq_filterMap (args : PortownArgs) (lines : List String) :
    parseNetstat args lines =
      (match args.depth with
        | none => lines
        | some m => lines.take m).filterMap (parseLine args) := by
  have h := parseLines_eq_filterMap args lines 0
  cases hd : args.depth <;> simpa [parseNetstat, hd] using h

/-- Full characterization of the per-line parser: a line yields a record
exactly when it passes the protocol-marker filters, carries a marker, has
enough whitespace-delimited fields, and passes the state filters; the
record is then `lineRecord line`. -/
theorem parseLine_eq_some_iff (args : PortownArgs) (line : String)
    (r : ConnectionRecord) :
    parseLine args line = some r ↔
      ((args.udp_only = true → containsTok line "UDP" = true) ∧
       (args.tcp_only = true → containsTok line "TCP" = true) ∧
       (containsTok line "TCP" = true ∨ containsTok line "UDP" = true) ∧
       ((if containsTok line "TCP" then (5 : Nat) else 4) ≤
          (splitWhitespace line).length) ∧
       (args.listen = true → (lineRecord line).state = "LISTENING") ∧
       (args.established_only = true → (lineRecord line).state = "ESTABLISHED") ∧
       r = lineRecord line) := by
  unfold parseLine lineRecord
  by_cases hct : containsTok line "TCP" <;> by_cases hcu : containsTok line "UDP" <;>
    by_cases hu : args.udp_only <;> by_cases ht : args.tcp_only <;>
    by_cases hl : args.listen <;> by_cases he : args.established_only <;>
    by_cases hlen : (if containsTok line "TCP" then (5 : Nat) else 4) ≤
      (splitWhitespace line).length <;>
    simp [hct, hcu, hu, ht, hl, he, hlen, Nat.lt_iff_add_one_le,
      Nat.not_le, Nat.not_lt] at hlen ⊢ <;>
    intros <;> exact eq_comm

/-- A line kept under some configuration is kept, with the same record,
under the empty configuration. -/
theorem parseLine_mono (args : PortownArgs) (line : String)
    (r : ConnectionRecord) (h : parseLine args line = some r) :
    parseLine noFilters line = some r := by
  rw [parseLine_eq_some_iff] at h ⊢
  obtain ⟨-, -, h3, h4, -, -, h7⟩ := h
  exact ⟨by simp [noFilters], by simp [noFilters], h3, h4,
    by simp [noFilters], by simp [noFilters], h7⟩

/-- With no filters, a line yields a record exactly when it carries a
protocol marker and has enough fields. -/
theorem parseLine_noFilters_isSome (line : String) :
    (parseLine noFilters line).isSome =
      ((containsTok line "TCP" || containsTok line "UDP") &&
        decide ((if containsTok line "TCP" then (5 : Nat) else 4) ≤
          (splitWhitespace line).length)) := by
  cases hp : parseLine noFilters line with
  | some r =>
    obtain ⟨-, -, h3, h4, -, -, -⟩ := (parseLine_eq_some_iff noFilters line r).mp hp
    by_cases hct : containsTok line "TCP" = true <;> simp [hct] at h4 ⊢ <;> simp_all
  | none =>
    by_cases hmk : (containsTok line "TCP" || containsTok line "UDP") = true
    · by_cases hlen : ((if containsTok line "TCP" then (5 : Nat) else 4) ≤
        (splitWhitespace line).length)
      · exfalso
        have hsome : parseLine noFilters line = some (lineRecord line) :=
          (parseLine_eq_some_iff noFilters line (lineRecord line)).mpr
            ⟨by simp [noFilters], by simp [noFilters],
             by simpa using hmk, hlen,
             by simp [noFilters], by simp [noFilters], rfl⟩
        rw [hp] at hsome
        exact Option.noConfusion hsome
      · simp [hlen]
    · simp only [Bool.or_eq_true, not_or] at hmk
      simp [hmk.1, hmk.2]

/-- Restricting the configuration only removes records: line by line, the
filtered parse is a sublist of the unfiltered parse. -/
theorem filterMap_parseLine_sublist (args : PortownArgs) (lines : List String) :
    List.Sublist (lines.filterMap (parseLine args))
      (lines.filterMap (parseLine noFilters)) := by
  induction lines with
  | nil => simp
  | cons l ls ih =>
    cases hp : parseLine args l with
    | some r =>
      rw [List.filterMap_cons, hp, List.filterMap_cons, parseLine_mono args l r hp]
      exact List.Sublist.cons₂ r ih
    | none =>
      rw [List.filterMap_cons, hp]
      cases hq : parseLine noFilters l with
      | some s =>
        rw [List.filterMap_cons, hq]
        exact List.Sublist.cons s ih
      | none =>
        rw [List.filterMap_cons, hq]
        exact ih

/-- Every record of a parse comes from some line of the input via the
per-line parser. -/
theorem mem_parseNetstat (args : PortownArgs) (lines : List String)
    (r : ConnectionRecord) (h : r ∈ parseNetstat args lines) :
    ∃ line, parseLine args line = some r := by
  rw [parseNetstat_eq_filterMap] at h
  rcases List.mem_filterMap.mp h with ⟨line, -, hl⟩
  exact ⟨line, hl⟩

/-- C1 counterexample: with a row cap of 1 on a two-line input whose first
line is a header, the output is empty although one record survives the
filters — the cap counts raw lines before filtering, so the output length
is not `min(cap, surviving-record count)`. -/
theorem row_cap_counterexample :
    ¬((parseNetstat
        { tcp_only := false, udp_only := false, listen := false,
          established_only := false, depth := some 1 }
        ["Active Connections", "  TCP 1.2.3.4:80 5.6.7.8:90 LISTENING 42"]).length =
      min 1 (parseNetstat noFilters
        ["Active Connections", "  TCP 1.2.3.4:80 5.6.7.8:90 LISTENING 42"]).length) := by
  decide

/-- C1 (amended): the row cap is applied to raw input lines before any
filtering — with a cap of `n` the parser processes exactly the first `n`
lines of the netstat output and returns the records among them that
survive the filters; a cap of 0 yields an empty sequence. -/
theorem row_cap_amended (args : PortownArgs) (n : Nat) (lines : List String) :
    parseNetstat { args with depth := some n } lines =
      parseNetstat { args with depth := none } (lines.take n) ∧
    parseNetstat { args with depth := some 0 } lines = [] := by
  constructor
  · rw [parseNetstat_eq_filterMap, parseNetstat_eq_filterMap]
    rfl
  · rw [parseNetstat_eq_filterMap]
    simp

/-- C4: a line yields exactly one record precisely when it carries a "TCP"
or "UDP" marker and has at least the minimum field count for that protocol
(5 for TCP, 4 for UDP); otherwise it yields zero records; and the overall
parse is the total function concatenating the per-line results, so it
never fails. -/
theorem parsing_completeness (line : String) :
    ((parseLine noFilters line).isSome =
      ((containsTok line "TCP" || containsTok line "UDP") &&
        decide ((if containsTok line "TCP" then (5 : Nat) else 4) ≤
          (splitWhitespace line).length))) ∧
    (∀ lines : List String,
      parseNetstat noFilters lines = lines.filterMap (parseLine noFilters)) := by
  refine ⟨parseLine_noFilters_isSome line, fun lines => ?_⟩
  rw [parseNetstat_eq_filterMap]
  rfl

/-- C5 counterexample: under the UDP-only filter, a line containing both
markers passes the filter but is classified as TCP, so the UDP-only output
contains a TCP record. -/
theorem filter_udp_only_counterexample :
    parseNetstat
        { tcp_only := false, udp_only := true, listen := false,
          established_only := false, depth := none } ["UDP TCP a b c"] =
      [{ protocol := "TCP", local_address := "TCP", foreign_address := "a",
         state := "b", pid := "c" }] := by
  decide

/-- C5 (amended): the filtered output is a sublist of the unfiltered
output; TCP-only output contains only TCP records; listening-only output
contains only LISTENING records; under the UDP-only filter every kept line
carries the "UDP" marker and yields a UDP record unless the line also
carries the "TCP" marker (in which case it is classified TCP). -/
theorem filter_correctness_amended (args : PortownArgs) (lines : List String) :
    List.Sublist (parseNetstat args lines) (parseNetstat noFilters lines) ∧
    (args.tcp_only = true →
      ∀ r ∈ parseNetstat args lines, r.protocol = "TCP") ∧
    (args.listen = true →
      ∀ r ∈ parseNetstat args lines, r.state = "LISTENING") ∧
    (args.udp_only = true → ∀ line r, parseLine args line = some r →
      containsTok line "UDP" = true ∧
      (containsTok line "TCP" = false → r.protocol = "UDP")) := by
  refine ⟨?_, ?_, ?_, ?_⟩
  · rw [parseNetstat_eq_filterMap, parseNetstat_eq_filterMap]
    cases hd : args.depth with
    | none => exact filterMap_parseLine_sublist args lines
    | some m =>
      exact List.Sublist.trans (filterMap_parseLine_sublist args (lines.take m))
        (List.Sublist.filterMap (parseLine noFilters) (List.take_sublist m lines))
  · intro htcp r hr
    obtain ⟨line, hl⟩ := mem_parseNetstat args lines r hr
    obtain ⟨-, h2, -, -, -, -, h7⟩ := (parseLine_eq_some_iff args line r).mp hl
    subst h7
    simp [lineRecord, h2 htcp]
  · intro hlisten r hr
    obtain ⟨line, hl⟩ := mem_parseNetstat args lines r hr
    obtain ⟨-, -, -, -, h5, -, h7⟩ := (parseLine_eq_some_iff args line r).mp hl
    subst h7
    exact h5 hlisten
  · intro hudp line r hl
    obtain ⟨h1, -, -, -, -, -, h7⟩ := (parseLine_eq_some_iff args line r).mp hl
    refine ⟨h1 hudp, fun hct => ?_⟩
    subst h7
    simp [lineRecord, hct]

/-- C5 witness: the amended theorem applied to the TCP-only configuration
on a concrete mixed line. -/
theorem filter_correctness_amended_witness :
    ({ protocol := "TCP", local_address := "1.2.3.4:80",
       foreign_address := "5.6.7.8:90", state := "LISTENING",
       pid := "42" } : ConnectionRecord).protocol = "TCP" :=
  (filter_correctness_amended
      { tcp_only := true, udp_only := false, listen := false,
        established_only := false, depth := none }
      ["  TCP 1.2.3.4:80 5.6.7.8:90 LISTENING 42"]).2.1 rfl _ (by decide)

/-- C7: the documented TCP scenario line parses, with no filters, to
exactly one TCP record with the stated fields. -/
theorem tcp_scenario :
    parseNetstat noFilters
        ["  TCP    0.0.0.0:135           0.0.0.0:0              LISTENING       672"] =
      [{ protocol := "TCP", local_address := "0.0.0.0:135",
         foreign_address := "0.0.0.0:0", state := "LISTENING",
         pid := "672" }] := by
  decide

/-- C8: every parsed UDP record has the fixed sentinel "-" as its state
and takes its PID from the fourth whitespace-delimited field, and the
documented UDP scenario line parses accordingly. -/
theorem udp_state_sentinel (args : PortownArgs) (line : String)
    (r : ConnectionRecord) (h : parseLine args line = some r)
    (hu : r.protocol = "UDP") :
    r.state = "-" ∧ r.pid = (splitWhitespace line).getD 3 "" ∧
    parseNetstat noFilters
        ["  UDP    0.0.0.0:500            *:*                                    1288"] =
      [{ protocol := "UDP", local_address := "0.0.0.0:500",
         foreign_address := "*:*", state := "-", pid := "1288" }] := by
  obtain ⟨-, -, -, -, -, -, h7⟩ := (parseLine_eq_some_iff args line r).mp h
  subst h7
  by_cases hct : containsTok line "TCP" = true
  · simp [lineRecord, hct] at hu
  · refine ⟨?_, ?_, by decide⟩ <;> simp [lineRecord, hct]

/-- C8 witness: the theorem applied to the concrete UDP scenario line. -/
theorem udp_state_sentinel_witness :
    ({ protocol := "UDP", local_address := "0.0.0.0:500",
       foreign_address := "*:*", state := "-",
       pid := "1288" } : ConnectionRecord).state = "-" ∧
    ({ protocol := "UDP", local_address := "0.0.0.0:500",
       foreign_address := "*:*", state := "-",
       pid := "1288" } : ConnectionRecord).pid =
      (splitWhitespace
        "  UDP    0.0.0.0:500            *:*                                    1288").getD 3 "" ∧
    parseNetstat noFilters
        ["  UDP    0.0.0.0:500            *:*                                    1288"] =
      [{ protocol := "UDP", local_address := "0.0.0.0:500",
         foreign_address := "*:*", state := "-", pid := "1288" }] :=
  udp_state_sentinel noFilters
    "  UDP    0.0.0.0:500            *:*                                    1288"
    { protocol := "UDP", local_address := "0.0.0.0:500",
      foreign_address := "*:*", state := "-", pid := "1288" }
    (by decide) rfl

/-- C2: resolving the same PID twice performs the external OS lookup at
most once — the second resolution is served from the cache and returns the
identical identity — and a resolution whose PID is already cached performs
no OS query at all. -/
theorem resolver_memoization (api : OsProcessApi) (g : Cache) (pid : String) :
    (get_process_info api (get_process_info api g pid).cache pid).osQueried = false ∧
    (get_process_info api (get_process_info api g pid).cache pid).identity =
      (get_process_info api g pid).identity ∧
    ((cacheGet g pid).isSome = true →
      (get_process_info api g pid).osQueried = false) := by
  cases hc : cacheGet g pid with
  | some v => simp [get_process_info, hc]
  | none =>
    by_cases ho : api.openProcess pid <;>
      simp [get_process_info, hc, ho, cacheGet_cacheInsert_self]

/-- C2 witness: a cached PID is resolved without querying the OS. -/
theorem resolver_memoization_witness :
    (get_process_info api0 [("42", "svchost.exe", "C:")] "42").osQueried = false :=
  (resolver_memoization api0 [("42", "svchost.exe", "C:")] "42").2.2 (by decide)

/-- C3 counterexample: when netstat exits with a non-success status and a
non-empty stderr, `execute` fails with the fixed message
"netstat command failed", which does not carry the stderr text. -/
theorem command_failed_counterexample :
    execute noFilters
        (.ran { success := false, stdout := [], stderr := "Access is denied" })
        api0 emptyCache =
      .error (.other "netstat command failed") ∧
    containsTok (Error.message (.other "netstat command failed"))
      "Access is denied" = false := by
  exact ⟨rfl, by decide⟩

/-- C3 (amended): if netstat fails to start, `execute` fails with an
`Error::Other` whose message embeds the spawn error; if netstat exits with
a non-success status, `execute` fails with the fixed
`Error::Other("netstat command failed")` (stderr is not included); in both
cases no table is rendered. -/
theorem command_failed_amended (args : PortownArgs) (api : OsProcessApi)
    (g : Cache) :
    (∀ e, execute args (.spawnError e) api g =
      .error (.other ("Failed to execute netstat: " ++ e))) ∧
    (∀ out : ProcOutput, out.success = false →
      execute args (.ran out) api g =
        .error (.other "netstat command failed")) := by
  refine ⟨fun e => rfl, fun out h => ?_⟩
  simp [execute, h]

/-- C3 witness: the amended theorem at a concrete spawn failure and a
concrete non-success exit. -/
theorem command_failed_amended_witness :
    execute noFilters (.spawnError "program not found") api0 emptyCache =
      .error (.other "Failed to execute netstat: program not found") ∧
    execute noFilters
        (.ran { success := false, stdout := [], stderr := "boom" })
        api0 emptyCache =
      .error (.other "netstat command failed") :=
  ⟨(command_failed_amended noFilters api0 emptyCache).1 "program not found",
   (command_failed_amended noFilters api0 emptyCache).2
     { success := false, stdout := [], stderr := "boom" } rfl⟩

/-- C6: when the OS lookup for a PID fails (the process cannot be opened)
or returns no data (it opens but neither the image name query nor the
module file name query yields anything), resolution yields the
("Unknown", "Unknown") identity, that degraded identity is itself cached
so a repeated resolution performs no further OS query, and `execute`
still succeeds whenever the netstat invocation itself succeeded. -/
theorem resolver_degradation (api : OsProcessApi) (g : Cache) (pid : String)
    (hfail : api.openProcess pid = false ∨
      (api.queryImageName pid = none ∧ api.getModuleFileName pid = none))
    (hmiss : cacheGet g pid = none) :
    (get_process_info api g pid).identity = ("Unknown", "Unknown") ∧
    cacheGet (get_process_info api g pid).cache pid =
      some ("Unknown", "Unknown") ∧
    (get_process_info api (get_process_info api g pid).cache pid).osQueried =
      false ∧
    (∀ args out, out.success = true →
      ∃ rows, execute args (.ran out) api g = .ok rows) := by
  have hkey : (get_process_info api g pid).identity = ("Unknown", "Unknown") ∧
      (get_process_info api g pid).cache =
        cacheInsert g pid ("Unknown", "Unknown") := by
    rcases hfail with hf | ⟨hq, hm⟩
    · simp [get_process_info, hmiss, hf]
    · by_cases ho : api.openProcess pid <;>
        simp [get_process_info, hmiss, ho, hq, hm]
  refine ⟨hkey.1, ?_, ?_, ?_⟩
  · rw [hkey.2]
    exact cacheGet_cacheInsert_self g pid _
  · rw [hkey.2]
    simp [get_process_info, cacheGet_cacheInsert_self]
  · intro args out h
    simp [execute, h]

/-- C6 witness: the PID "9999" degrades to ("Unknown", "Unknown") both
when its handle cannot be opened and when the open succeeds but the
queries return no data; the degraded identity is cached and the command
still succeeds. -/
theorem resolver_degradation_witness :
    (get_process_info api0 emptyCache "9999").identity =
      ("Unknown", "Unknown") ∧
    (get_process_info apiNoData emptyCache "9999").identity =
      ("Unknown", "Unknown") ∧
    cacheGet (get_process_info apiNoData emptyCache "9999").cache "9999" =
      some ("Unknown", "Unknown") ∧
    (∃ rows, execute noFilters
        (.ran { success := true,
                stdout := ["  TCP 1.2.3.4:80 5.6.7.8:90 LISTENING 9999"],
                stderr := "" }) apiNoData emptyCache = .ok rows) := by
  have h1 := resolver_degradation api0 emptyCache "9999" (Or.inl rfl) rfl
  have h2 := resolver_degradation apiNoData emptyCache "9999"
    (Or.inr ⟨rfl, rfl⟩) rfl
  exact ⟨h1.1, h2.1, h2.2.1, h2.2.2.2 noFilters _ rfl⟩

/-- C9: color selection is total — every protocol string and every state
string is assigned some color, and any string outside the known sets falls
back to the default white. -/
theorem rendering_totality (p s : String) :
    (∃ c, protocolColor p = c) ∧ (∃ c, stateColor s = c) ∧
    (p ≠ "TCP" → p ≠ "UDP" → protocolColor p = Color.white) ∧
    (s ≠ "LISTENING" → s ≠ "ESTABLISHED" → s ≠ "CLOSE_WAIT" →
      s ≠ "TIME_WAIT" → stateColor s = Color.white) := by
  refine ⟨⟨_, rfl⟩, ⟨_, rfl⟩, ?_, ?_⟩
  · intro h1 h2
    simp [protocolColor, h1, h2]
  · intro h1 h2 h3 h4
    simp [stateColor, h1, h2, h3, h4]

/-- C9 witness: unrecognized protocol and state strings get the default
color. -/
theorem rendering_totality_witness :
    protocolColor "ICMP" = Color.white ∧ stateColor "SYN_SENT" = Color.white :=
  ⟨(rendering_totality "ICMP" "SYN_SENT").2.2.1 (by decide) (by decide),
   (rendering_totality "ICMP" "SYN_SENT").2.2.2 (by decide) (by decide)
     (by decide) (by decide)⟩

/-- C10: a connection whose PID is absent from the resolved-identity cache
is still rendered, with "Unknown" substituted for the process name and
path, and every connection produces exactly one rendered row. -/
theorem render_unknown_fallback (pid_cache : Cache)
    (conns : List ConnectionRecord) (r : ConnectionRecord)
    (hmem : r ∈ conns) (h : cacheGet pid_cache r.pid = none) :
    ({ protocol := r.protocol, local_address := r.local_address,
       foreign_address := r.foreign_address, state := r.state, pid := r.pid,
       name := "Unknown", path := "Unknown" } : RenderedRow) ∈
      renderRows pid_cache conns ∧
    (renderRows pid_cache conns).length = conns.length := by
  constructor
  · rw [renderRows]
    exact List.mem_map.mpr ⟨r, hmem, by simp [h]⟩
  · simp [renderRows]

/-- C10 witness: a record whose PID is missing from an empty cache is
rendered with the Unknown identity. -/
theorem render_unknown_fallback_witness :
    ({ protocol := "TCP", local_address := "a", foreign_address := "b",
       state := "LISTENING", pid := "7", name := "Unknown",
       path := "Unknown" } : RenderedRow) ∈
      renderRows emptyCache
        [{ protocol := "TCP", local_address := "a", foreign_address := "b",
           state := "LISTENING", pid := "7" }] ∧
    (renderRows emptyCache
        [{ protocol := "TCP", local_address := "a", foreign_address := "b",
           state := "LISTENING", pid := "7" }]).length =
      List.length
        [({ protocol := "TCP", local_address := "a", foreign_address := "b",
            state := "LISTENING", pid := "7" } : ConnectionRecord)] :=
  render_unknown_fallback emptyCache
    [{ protocol := "TCP", local_address := "a", foreign_address := "b",
       state := "LISTENING", pid := "7" }]
    { protocol := "TCP", local_address := "a", foreign_address := "b",
      state := "LISTENING", pid := "7" }
    (by decide) rfl

end Toolboxer
